import Mathlib

/-!
Verification of the two utility scripts of this repository against their
specification.

Part 1 embeds `src/convert-pdf-markitdown.py`: a CLI wrapper that validates a
source path, asks an external conversion service (MarkItDown) for text
content, and writes that content to a destination file.  The filesystem is
modelled explicitly (a map from paths to file contents plus a set of
directories), and the external service is an oracle parameter: it can fail to
import, raise during conversion, or return a text content string.

Part 2 embeds `src/database/create_excel_database_template.py`: a generator
that renders a fixed in-memory catalogue of table schemas into a multi-sheet
workbook plus a README index document.
-/

namespace Shamay

/-- Filesystem model: files as a path-to-content association list and a list
of directories that exist.  `os.path.exists` is true for files and for
directories. -/
structure FS where
  files : List (String × String)
  dirs : List String
deriving DecidableEq, Repr

/-- Content of the file at path `p`, when a file exists there. -/
def FS.readFile (fs : FS) (p : String) : Option String :=
  (fs.files.find? (fun q => q.1 == p)).map (fun q => q.2)

/-- Model of `os.path.exists`: true when a file or a directory exists at `p`. -/
def FS.existsPath (fs : FS) (p : String) : Bool :=
  fs.files.any (fun q => q.1 == p) || fs.dirs.contains p

/-- Model of `open(p, "w")` followed by a full write: the file at `p` now has
content `c`; any previous file at `p` is replaced. -/
def FS.writeFile (fs : FS) (p c : String) : FS :=
  { fs with files := (p, c) :: fs.files.filter (fun q => !(q.1 == p)) }

/-- Model of `os.makedirs(d, exist_ok=True)`: the directory `d` exists
afterwards; files are untouched. -/
def FS.makeDirs (fs : FS) (d : String) : FS :=
  { fs with dirs := d :: fs.dirs }

/-- Model of Python `str.lower()` (the source only relies on it for the ASCII
letters of the `.pdf` suffix). -/
def pyLower (s : String) : String :=
  ⟨s.data.map Char.toLower⟩

/-- Model of Python `str.endswith(suffix)`. -/
def pyEndsWith (s suffix : String) : Bool :=
  suffix.data.isSuffixOf s.data

/-- Model of `os.path.dirname` (posixpath): everything up to the last slash,
with trailing slashes stripped unless the head is all slashes; `""` when the
path has no slash. -/
def dirname (p : String) : String :=
  let headRev := p.data.reverse.dropWhile (fun c => !(c == '/'))
  let head :=
    if headRev.any (fun c => !(c == '/')) then headRev.dropWhile (fun c => c == '/')
    else headRev
  ⟨head.reverse⟩

/-- Behaviour of the external conversion dependency for one invocation:
the `from markitdown import MarkItDown` line raises `ImportError`, or
`md.convert(pdf_path)` raises an exception, or it returns a result whose
`text_content` is the given string (the empty string models a falsy result). -/
inductive ServiceBehavior where
  | importError (msg : String)
  | convError (msg : String)
  | returns (text_content : String)
deriving DecidableEq, Repr

/-- Result of one run of `convert_pdf_to_markdown`: the returned boolean, the
filesystem afterwards, the lines printed, and whether `md.convert` was ever
reached. -/
structure ConvResult where
  success : Bool
  fs : FS
  messages : List String
  serviceInvoked : Bool
deriving DecidableEq, Repr

/-- A line of 50 dashes, the preview separator printed by the converter. -/
def dashLine : String :=
  ⟨List.replicate 50 '-'⟩

/-- Embedding of `convert_pdf_to_markdown(pdf_path, output_path)` from
`src/convert-pdf-markitdown.py` lines 11-51, with the external dependency
passed in as `svc`.  The file write at lines 30-31 is the only filesystem
effect. -/
def convert_pdf_to_markdown (svc : ServiceBehavior) (pdf_path output_path : String)
    (fs : FS) : ConvResult :=
  match svc with
  | .importError e =>
      ⟨false, fs,
        ["ERROR: MarkItDown not installed - " ++ e,
         "Install with: pip install \x27markitdown[all]\x27"], false⟩
  | .convError e =>
      ⟨false, fs,
        ["Converting PDF: " ++ pdf_path, "Output: " ++ output_path,
         "ERROR: Conversion failed - " ++ e], true⟩
  | .returns t =>
      if t.isEmpty = true then
        ⟨false, fs,
          ["Converting PDF: " ++ pdf_path, "Output: " ++ output_path,
           "ERROR: No content extracted from PDF"], true⟩
      else
        ⟨true, fs.writeFile output_path t,
          ["Converting PDF: " ++ pdf_path, "Output: " ++ output_path,
           "SUCCESS: Conversion completed",
           "Output length: " ++ toString t.length ++ " characters",
           "\nPreview:", dashLine, ⟨t.data.take 500⟩, dashLine], true⟩

/-- Result of one full run of the converter CLI: process exit code, the
filesystem afterwards, the lines printed, and whether the conversion service
was ever invoked. -/
structure RunResult where
  exitCode : Nat
  fs : FS
  messages : List String
  serviceInvoked : Bool
deriving DecidableEq, Repr

/-- The usage line printed when `len(sys.argv) != 3`. -/
def usageMsg : String :=
  "Usage: python convert-pdf-markitdown.py <pdf_path> <output_path>"

/-- Embedding of `main()` from `src/convert-pdf-markitdown.py` lines 53-84.
`argv` models `sys.argv` (program name plus arguments); the three-element
match is `len(sys.argv) != 3`.  Validation order follows the source: source
existence first, then the lowercased `.pdf` suffix, then creation of the
output directory when it is non-empty and absent, then the conversion. -/
def main_run (argv : List String) (fs : FS) (svc : ServiceBehavior) : RunResult :=
  match argv with
  | [_prog, pdf_path, output_path] =>
    if fs.existsPath pdf_path = false then
      ⟨1, fs, ["ERROR: PDF file not found: " ++ pdf_path], false⟩
    else if pyEndsWith (pyLower pdf_path) ".pdf" = false then
      ⟨1, fs, ["ERROR: Input file must be a PDF: " ++ pdf_path], false⟩
    else
      let output_dir := dirname output_path
      let fs1 :=
        if output_dir ≠ "" ∧ fs.existsPath output_dir = false then fs.makeDirs output_dir
        else fs
      let r := convert_pdf_to_markdown svc pdf_path output_path fs1
      if r.success = true then
        ⟨0, r.fs, r.messages ++ ["\n✅ PDF converted successfully to: " ++ output_path],
          r.serviceInvoked⟩
      else
        ⟨1, r.fs, r.messages ++ ["\n❌ PDF conversion failed"], r.serviceInvoked⟩
  | _ => ⟨1, fs, [usageMsg], false⟩

/-!
Part 2: embedding of `src/database/create_excel_database_template.py`.
-/

/-- A scalar cell value of a sample row: Python strings, ints, floats
(embedded as the rational number the decimal literal denotes; the generator
never computes with them) and booleans. -/
inductive Value where
  | vStr (s : String)
  | vInt (n : Int)
  | vNum (q : Rat)
  | vBool (b : Bool)
deriving DecidableEq, Repr

/-- One sample record: an ordered mapping from field name to value (a Python
dict literal, whose insertion order the source relies on). -/
abbrev Row : Type := List (String × Value)

/-- One entry of `tables_data`: localized display name, description, and the
list of sample rows. -/
structure TableInfo where
  hebrew_name : String
  description : String
  data : List Row
deriving DecidableEq

/-- Embedding of the `tables_data` dict literal (lines 12-235 of the source):
an ordered mapping from table name to its info. -/
def tables_data : List (String × TableInfo) :=
  [("Land_Registry_Comprehensive",
    { hebrew_name := "נסח טאבו מקיף"
      description := "מסמכי בעלות ורישום מקרקעין"
      data := [[("id", .vInt 1),
                ("registration_office", .vStr "לשכת רישום מקרקעין תל אביב"),
                ("issue_date", .vStr "2024-01-15"),
                ("tabu_extract_date", .vStr "2024-01-10"),
                ("document_filename", .vStr "sample_tabu.pdf"),
                ("gush", .vInt 9905),
                ("chelka", .vInt 88),
                ("sub_chelka", .vInt 8),
                ("total_plot_area", .vNum 250.5),
                ("regulation_type", .vStr "מוסכם"),
                ("address_from_tabu", .vStr "רחוב הרצל 123, תל אביב"),
                ("unit_description", .vStr "דירת 4 חדרים קומה 2"),
                ("floor", .vInt 2),
                ("apartment_registered_area", .vNum 85.5),
                ("balcony_area", .vNum 12.3),
                ("owners_count", .vInt 1),
                ("ownership_type", .vStr "בעלות מלאה"),
                ("confidence_overall", .vNum 0.85),
                ("created_at", .vStr "2024-01-15 10:30:00")]] }),
   ("Building_Permits",
    { hebrew_name := "היתרי בנייה"
      description := "מסמכי היתרי בנייה מילוליים"
      data := [[("id", .vInt 1),
                ("document_filename", .vStr "building_permit_sample.pdf"),
                ("permit_number", .vStr "BP-2024-001"),
                ("permit_date", .vStr "2024-01-10"),
                ("permitted_usage", .vStr "מגורים"),
                ("permit_issue_date", .vStr "2024-01-08"),
                ("local_committee_name", .vStr "ועדה מקומית תל אביב"),
                ("overall_confidence", .vNum 87.5),
                ("created_at", .vStr "2024-01-15 10:00:00")]] }),
   ("Shared_Building_Orders",
    { hebrew_name := "צווי בית משותף"
      description := "מסמכי רישום בית משותף"
      data := [[("id", .vInt 1),
                ("filename", .vStr "shared_building_order_sample.pdf"),
                ("order_issue_date", .vStr "2024-01-12"),
                ("building_description", .vStr "בניין מגורים בן 4 קומות"),
                ("building_floors", .vInt 4),
                ("building_sub_plots_count", .vInt 8),
                ("building_address", .vStr "רחוב בן יהודה 45 תל אביב"),
                ("total_sub_plots", .vInt 8),
                ("overall_confidence", .vNum 0.88),
                ("processed_at", .vStr "2024-01-15 11:00:00")]] }),
   ("Property_Assessments",
    { hebrew_name := "שומות שווי נכסים"
      description := "נתוני הערכת שווי נכסים מקצועית"
      data := [[("id", .vInt 1),
                ("assessment_type", .vStr "שומת שווי מלאה"),
                ("street_name", .vStr "רחוב הרצל"),
                ("house_number", .vStr "123"),
                ("neighborhood", .vStr "שכונת הלב"),
                ("city", .vStr "תל אביב"),
                ("client_name", .vStr "יוסי כהן"),
                ("visit_date", .vStr "2024-01-20"),
                ("visitor_name", .vStr "שמואל לוי"),
                ("presenter_name", .vStr "רחל גולן"),
                ("rooms", .vInt 4),
                ("floor_number", .vStr "2"),
                ("eco_coefficient", .vNum 1.15),
                ("status", .vStr "completed"),
                ("created_at", .vStr "2024-01-15 12:00:00")]] }),
   ("Images",
    { hebrew_name := "תמונות נכסים"
      description := "תמונות ומסמכים נלווים לנכסים"
      data := [[("id", .vInt 1),
                ("image_type", .vStr "תמונה חיצונית"),
                ("title", .vStr "חזית הבניין"),
                ("filename", .vStr "building_front.jpg"),
                ("file_size", .vInt 2048000),
                ("width", .vInt 1920),
                ("height", .vInt 1080),
                ("property_assessment_id", .vInt 1),
                ("captured_date", .vStr "2024-01-15"),
                ("uploaded_by", .vStr "צלם נכסים"),
                ("status", .vStr "active"),
                ("created_at", .vStr "2024-01-15 13:00:00")],
               [("id", .vInt 2),
                ("image_type", .vStr "סקרין שוט GOVMAP"),
                ("title", .vStr "מפה קדסטרלית"),
                ("filename", .vStr "govmap_screenshot.png"),
                ("file_size", .vInt 1024000),
                ("width", .vInt 1600),
                ("height", .vInt 900),
                ("property_assessment_id", .vInt 1),
                ("captured_date", .vStr "2024-01-15"),
                ("uploaded_by", .vStr "מעריך נכסים"),
                ("status", .vStr "active"),
                ("created_at", .vStr "2024-01-15 13:15:00")]] }),
   ("Garmushka",
    { hebrew_name := "גרמושקה"
      description := "מסמכי מדידה וחישוב שטחים"
      data := [[("id", .vInt 1),
                ("document_filename", .vStr "garmushka_sample.pdf"),
                ("garmushka_issue_date", .vStr "2024-01-10"),
                ("built_area", .vNum 120.50),
                ("apartment_area", .vNum 95.30),
                ("balcony_area", .vNum 15.20),
                ("property_assessment_id", .vInt 1),
                ("building_permit_id", .vInt 1),
                ("processing_method", .vStr "manual"),
                ("overall_confidence", .vNum 0.88),
                ("created_by", .vStr "מודד מוסמך"),
                ("status", .vStr "completed"),
                ("created_at", .vStr "2024-01-15 14:00:00")]] }),
   ("Comparable_Data",
    { hebrew_name := "נתוני השוואה"
      description := "נתוני מכירות נכסים להשוואה"
      data := [[("id", .vInt 1),
                ("sale_date", .vStr "2024-01-15"),
                ("address", .vStr "רחוב הרצל 125, תל אביב"),
                ("gush_chelka_sub", .vStr "9905/88/10"),
                ("rooms", .vNum 3.5),
                ("floor_number", .vStr "2"),
                ("apartment_area_sqm", .vNum 85.5),
                ("parking_spaces", .vInt 1),
                ("construction_year", .vInt 2010),
                ("declared_price", .vInt 2850000),
                ("price_per_sqm_rounded", .vInt 33333),
                ("city", .vStr "תל אביב"),
                ("data_quality_score", .vInt 85),
                ("is_valid", .vBool true),
                ("imported_by", .vStr "מנהל נתונים"),
                ("status", .vStr "active"),
                ("created_at", .vStr "2024-01-15 15:00:00")],
               [("id", .vInt 2),
                ("sale_date", .vStr "2024-01-10"),
                ("address", .vStr "רחוב בן יהודה 50, תל אביב"),
                ("gush_chelka_sub", .vStr "9905/89/5"),
                ("rooms", .vInt 4),
                ("floor_number", .vStr "3"),
                ("apartment_area_sqm", .vNum 92.0),
                ("parking_spaces", .vInt 1),
                ("construction_year", .vInt 2015),
                ("declared_price", .vInt 3200000),
                ("price_per_sqm_rounded", .vInt 34782),
                ("city", .vStr "תל אביב"),
                ("data_quality_score", .vInt 90),
                ("is_valid", .vBool true),
                ("imported_by", .vStr "מנהל נתונים"),
                ("status", .vStr "active"),
                ("created_at", .vStr "2024-01-15 15:01:00")]] }),
   ("Miscellaneous",
    { hebrew_name := "נתונים נוספים"
      description := "נתוני הערכת שווי נוספים"
      data := [[("id", .vInt 1),
                ("today_date", .vStr "2024-01-15"),
                ("appraisal_id", .vStr "AP-2024-001"),
                ("opinion_types", .vStr "שומה מלאה, הערכת שווי"),
                ("land_form", .vStr "מלבנית"),
                ("land_surface", .vStr "שטוח"),
                ("value_per_sqm", .vNum 50000.00),
                ("ecological_area", .vNum 120.50),
                ("property_value", .vNum 6025000.00),
                ("property_value_in_words", .vStr "שישה מיליון עשרים וחמישה אלף שקלים"),
                ("environment_description_prompt", .vStr "אזור מגורים שקט ויוקרתי ליד פארק עירוני"),
                ("plot_description_prompt", .vStr "חלקה פינתית עם נגישות מעולה לתחבורה ציבורית"),
                ("internal_property_description", .vStr "דירת 4 חדרים מחולקת היטב עם מרפסת גדולה"),
                ("property_assessment_id", .vInt 1),
                ("created_by", .vStr "מעריך נכסים"),
                ("status", .vStr "completed"),
                ("created_at", .vStr "2024-01-15 16:00:00")]] }),
   ("Environment_Analyses",
    { hebrew_name := "ניתוחי סביבה"
      description := "ניתוח מיקום וסביבה של נכסים"
      data := [[("id", .vStr "a1b2c3d4-e5f6-7890-abcd-ef1234567890"),
                ("street", .vStr "רחוב הרצל"),
                ("neighborhood", .vStr "שכונת הלב"),
                ("city", .vStr "תל אביב"),
                ("confidence_score", .vNum 0.85),
                ("processing_time", .vInt 2500),
                ("tokens_used", .vInt 1200),
                ("cost", .vNum 0.0045),
                ("analysis_method", .vStr "anthropic_claude_environment"),
                ("model_used", .vStr "claude-3-5-sonnet-20241022"),
                ("created_at", .vStr "2024-01-15 17:00:00")]] })]

/-- One rendered spreadsheet cell: a text cell written by the generator, a
data cell carrying a sample-row value, or a blank cell (a field missing from
a row renders as NaN/blank in the tabular output). -/
inductive Cell where
  | s (v : String)
  | v (x : Value)
  | blank
deriving DecidableEq, Repr

/-- One sheet of the workbook: its name, its grid of cells, and whether the
two inserted header cells carry the bold / italic fonts the source sets. -/
structure Sheet where
  name : String
  rows : List (List Cell)
  titleBold : Bool
  descItalic : Bool
deriving DecidableEq, Repr

/-- Columns of `pd.DataFrame(rows)` built from a list of dicts: the union of
the field names of all rows, in order of first appearance. -/
def dfColumns (rows : List Row) : List String :=
  rows.foldl
    (fun acc r =>
      r.foldl (fun a kv => if a.contains kv.1 then a else a ++ [kv.1]) acc)
    []

/-- The cell a DataFrame holds at row `r`, column `c`: the value of the field
when the row has it, blank (NaN) otherwise. -/
def rowCell (r : Row) (c : String) : Cell :=
  match r.find? (fun kv => kv.1 == c) with
  | some kv => .v kv.2
  | none => .blank

/-- The sheet the generator produces for one table (lines 258-279 of the
source): name truncated by `table_name[:31] if len(table_name) > 31 else
table_name`; then the tabular DataFrame rendering (header row of column
names, one row per record), with two rows inserted on top carrying the
localized title (bold) and the description (italic). -/
def tableSheet (table_name : String) (info : TableInfo) : Sheet :=
  let cols := dfColumns info.data
  { name := if table_name.length > 31 then ⟨table_name.data.take 31⟩ else table_name
    rows := [Cell.s ("טבלה: " ++ info.hebrew_name)] ::
            [Cell.s ("תיאור: " ++ info.description)] ::
            cols.map Cell.s ::
            info.data.map (fun r => cols.map (rowCell r))
    titleBold := true
    descItalic := true }

/-- Header row of the Summary sheet: the four keys of each `summary_data`
dict, in insertion order. -/
def summaryHeader : List Cell :=
  [Cell.s "Table Name (English)", Cell.s "שם הטבלה (עברית)", Cell.s "תיאור",
   Cell.s "מספר רשומות לדוגמה"]

/-- The Summary sheet (lines 244-255 of the source): one row per table, in
`tables_data` order, holding the English name, the Hebrew name, the
description and `len(table_info["data"])`. -/
def summarySheet : Sheet :=
  { name := "Summary - סיכום"
    rows := summaryHeader ::
      tables_data.map (fun p =>
        [Cell.s p.1, Cell.s p.2.hebrew_name, Cell.s p.2.description,
         Cell.v (Value.vInt p.2.data.length)])
    titleBold := false
    descItalic := false }

/-- The fixed output path of the workbook. -/
def output_file : String :=
  "/mnt/c/Users/dell/CascadeProjects/Shamay-slow/database-templates/Shamay_Database_Tables.xlsx"

/-- Embedding of `create_excel_workbook` (lines 237-281): the workbook as the
ordered list of sheets it writes — the Summary sheet first, then one sheet
per table in `tables_data` order. -/
def create_excel_workbook : List Sheet :=
  summarySheet :: tables_data.map (fun p => tableSheet p.1 p.2)

/-- The hand-declared `csv_files` list of `create_csv_index` (lines 289-299):
(filename, Hebrew name, English description) triples. -/
def csv_files : List (String × String × String) :=
  [("1_land_registry_comprehensive.csv", "נסח טאבו מקיף", "Comprehensive land registry records"),
   ("2_building_permits.csv", "היתרי בנייה", "Building permits data"),
   ("3_shared_building_order.csv", "צווי בית משותף", "Shared building orders"),
   ("4_property_assessments.csv", "שומות שווי נכסים", "Property assessments"),
   ("5_images.csv", "תמונות נכסים", "Property images and documents"),
   ("6_garmushka.csv", "גרמושקה", "Measurement documents"),
   ("7_comparable_data.csv", "נתוני השוואה", "Comparable sales data"),
   ("8_miscellaneous.csv", "נתונים נוספים", "Miscellaneous valuation data"),
   ("9_environment_analyses.csv", "ניתוחי סביבה", "Environment analysis data")]

/-- Embedding of `create_csv_index` (lines 283-315): the full text of the
README index document it writes. -/
def create_csv_index : String :=
  let base := "# Shamay Database CSV Files\n\n"
    ++ "This directory contains CSV templates for all database tables in the Shamay system.\n\n"
    ++ "## Files:\n\n"
  let withFiles := csv_files.foldl
    (fun acc t => acc ++ "- **" ++ t.1 ++ "** - " ++ t.2.1 ++ " (" ++ t.2.2 ++ ")\n")
    base
  withFiles
    ++ "\n## Usage:\n\n"
    ++ "1. Each CSV file contains sample data with proper column headers\n"
    ++ "2. Use these templates to understand the database structure\n"
    ++ "3. Import data following the same format and column names\n"
    ++ "4. Hebrew text is fully supported in all fields\n\n"
    ++ "## Excel Version:\n\n"
    ++ "A complete Excel workbook with all tables is available as `Shamay_Database_Tables.xlsx`\n"

/-- Ambient state a generator run could in principle observe.  The source
imports `datetime` but never consults it, so no part of the rendering reads
this value. -/
structure GenEnv where
  now : String
deriving DecidableEq, Repr

/-- One full generator run in ambient state `_env`: the workbook content and
the index text.  The body reads nothing from `_env`, mirroring the source,
whose output depends only on `tables_data` and `csv_files`. -/
def generator_run (_env : GenEnv) : List Sheet × String :=
  (create_excel_workbook, create_csv_index)

/-- Whether a rendering step of the generator completes or raises an
exception with a message. -/
inductive StepOutcome where
  | ok
  | raises (msg : String)
deriving DecidableEq, Repr

/-- The hint printed by the `except` block of the `__main__` driver. -/
def installHint : String :=
  "Make sure pandas and openpyxl are installed: pip install pandas openpyxl"

/-- Embedding of the `__main__` driver (lines 317-324): runs
`create_excel_workbook` then `create_csv_index` inside one `try`; any
exception is caught and reported by two `print` calls.  The script never
calls `sys.exit`, so the interpreter exits with status 0 on every path; the
result is (exit status, lines printed). -/
def template_main (wbStep idxStep : StepOutcome) : Nat × List String :=
  match wbStep with
  | .raises e =>
      (0, ["Error creating templates: " ++ e, installHint])
  | .ok =>
    match idxStep with
    | .raises e =>
        (0, ["Excel file created successfully: " ++ output_file,
             "Error creating templates: " ++ e, installHint])
    | .ok =>
        (0, ["Excel file created successfully: " ++ output_file,
             "CSV index file created: README.md",
             "All database templates created successfully!"])

/-- The `Building_Permits` entry of `tables_data`, used to instantiate the
per-schema sheet theorem on a concrete schema. -/
def buildingPermitsInfo : TableInfo :=
  { hebrew_name := "היתרי בנייה"
    description := "מסמכי היתרי בנייה מילוליים"
    data := [[("id", .vInt 1),
              ("document_filename", .vStr "building_permit_sample.pdf"),
              ("permit_number", .vStr "BP-2024-001"),
              ("permit_date", .vStr "2024-01-10"),
              ("permitted_usage", .vStr "מגורים"),
              ("permit_issue_date", .vStr "2024-01-08"),
              ("local_committee_name", .vStr "ועדה מקומית תל אביב"),
              ("overall_confidence", .vNum 87.5),
              ("created_at", .vStr "2024-01-15 10:00:00")]] }

/-!
Theorems.
-/

/-- Writing a file and reading it back at the same path yields the written
content. -/
theorem FS.readFile_writeFile_self (fs : FS) (p c : String) :
    (fs.writeFile p c).readFile p = some c := by
  simp [FS.writeFile, FS.readFile, List.find?]

/-- When `convert_pdf_to_markdown` returns `False`, it has not touched the
filesystem: every `return False` path precedes the file write. -/
theorem conv_fail_files (svc : ServiceBehavior) (p o : String) (fs : FS)
    (h : (convert_pdf_to_markdown svc p o fs).success = false) :
    (convert_pdf_to_markdown svc p o fs).fs = fs := by
  cases svc with
  | importError e => rfl
  | convError e => rfl
  | returns t =>
    by_cases ht : t.isEmpty = true <;> simp_all [convert_pdf_to_markdown]

/-- Every run of the converter that exits non-zero leaves the set of files
exactly as it found it. -/
theorem main_run_files_of_ne (argv : List String) (fs : FS) (svc : ServiceBehavior)
    (h : (main_run argv fs svc).exitCode ≠ 0) :
    (main_run argv fs svc).fs.files = fs.files := by
  rcases argv with _ | ⟨a, _ | ⟨b, _ | ⟨c, _ | ⟨d, rest⟩⟩⟩⟩
  · rfl
  · rfl
  · rfl
  · by_cases hex : fs.existsPath b = true
    · by_cases hext : pyEndsWith (pyLower b) ".pdf" = true
      · by_cases hs : (convert_pdf_to_markdown svc b c
            (if dirname c ≠ "" ∧ fs.existsPath (dirname c) = false
              then fs.makeDirs (dirname c) else fs)).success = true
        · exfalso
          apply h
          simp [main_run, hex, hext, hs]
        · have hs2 : (convert_pdf_to_markdown svc b c
              (if dirname c ≠ "" ∧ fs.existsPath (dirname c) = false
                then fs.makeDirs (dirname c) else fs)).success = false := by
            cases hq : (convert_pdf_to_markdown svc b c
                (if dirname c ≠ "" ∧ fs.existsPath (dirname c) = false
                  then fs.makeDirs (dirname c) else fs)).success <;> simp_all
          have hfs := conv_fail_files svc b c
            (if dirname c ≠ "" ∧ fs.existsPath (dirname c) = false
              then fs.makeDirs (dirname c) else fs) hs2
          simp [main_run, hex, hext, hs2, hfs]
          split <;> simp [FS.makeDirs]
      · have hext2 : pyEndsWith (pyLower b) ".pdf" = false := by
          cases hq : pyEndsWith (pyLower b) ".pdf" <;> simp_all
        simp [main_run, hex, hext2]
    · have hex2 : fs.existsPath b = false := by
        cases hq : fs.existsPath b <;> simp_all
      simp [main_run, hex2]
  · rfl

/-- Claim C1: for every source path that exists, ends in the recognized
document extension, and for which the conversion service returns non-empty
text content, the converter writes the destination file with exactly the
returned text content and the process exits with status 0. -/
theorem converter_success_writes_service_text (prog src dst : String) (fs : FS) (t : String)
    (hex : fs.existsPath src = true)
    (hext : pyEndsWith (pyLower src) ".pdf" = true)
    (ht : t.isEmpty = false) :
    (main_run [prog, src, dst] fs (.returns t)).exitCode = 0 ∧
    (main_run [prog, src, dst] fs (.returns t)).fs.readFile dst = some t := by
  simp [main_run, hex, hext, convert_pdf_to_markdown, ht, FS.readFile_writeFile_self]

/-- Witness for C1 on a concrete run. -/
theorem converter_success_writes_service_text_witness :
    (FS.existsPath ⟨[("a.pdf", "raw")], []⟩ "a.pdf" = true) ∧
    (pyEndsWith (pyLower "a.pdf") ".pdf" = true) ∧
    ("hello".isEmpty = false) ∧
    ((main_run ["python", "a.pdf", "out/a.md"] ⟨[("a.pdf", "raw")], []⟩
        (.returns "hello")).exitCode = 0 ∧
      (main_run ["python", "a.pdf", "out/a.md"] ⟨[("a.pdf", "raw")], []⟩
        (.returns "hello")).fs.readFile "out/a.md" = some "hello") :=
  ⟨by decide, by decide, by decide,
    converter_success_writes_service_text "python" "a.pdf" "out/a.md"
      ⟨[("a.pdf", "raw")], []⟩ "hello" (by decide) (by decide) (by decide)⟩

/-- Claim C2: every failing converter invocation leaves the file map exactly
as it was (no destination file is written or modified), and each of the
listed failure modes — missing source, wrong extension, missing dependency,
conversion exception, empty extraction — exits with status 1. -/
theorem converter_failure_writes_nothing (argv : List String) (fs : FS) (svc : ServiceBehavior) :
    ((main_run argv fs svc).exitCode ≠ 0 → (main_run argv fs svc).fs.files = fs.files) ∧
    (∀ prog src dst, argv = [prog, src, dst] →
      (fs.existsPath src = false ∨ pyEndsWith (pyLower src) ".pdf" = false ∨
        (∃ e, svc = ServiceBehavior.importError e) ∨
        (∃ e, svc = ServiceBehavior.convError e) ∨
        (∃ t, svc = ServiceBehavior.returns t ∧ t.isEmpty = true)) →
      (main_run argv fs svc).exitCode = 1) := by
  constructor
  · exact main_run_files_of_ne argv fs svc
  · rintro prog src dst rfl hfail
    by_cases hex : fs.existsPath src = true
    · by_cases hext : pyEndsWith (pyLower src) ".pdf" = true
      · rcases hfail with hx | hx | ⟨e, rfl⟩ | ⟨e, rfl⟩ | ⟨t, rfl, ht⟩
        · simp_all
        · simp_all
        · simp [main_run, hex, hext, convert_pdf_to_markdown]
        · simp [main_run, hex, hext, convert_pdf_to_markdown]
        · simp [main_run, hex, hext, convert_pdf_to_markdown, ht]
      · have hext2 : pyEndsWith (pyLower src) ".pdf" = false := by
          cases hq : pyEndsWith (pyLower src) ".pdf" <;> simp_all
        simp [main_run, hex, hext2]
    · have hex2 : fs.existsPath src = false := by
        cases hq : fs.existsPath src <;> simp_all
      simp [main_run, hex2]

/-- Witness for C2: a run on a missing source exits 1. -/
theorem converter_failure_writes_nothing_witness :
    (main_run ["python", "missing.pdf", "out.md"] ⟨[], []⟩ (.returns "x")).exitCode = 1 :=
  (converter_failure_writes_nothing ["python", "missing.pdf", "out.md"] ⟨[], []⟩
      (.returns "x")).2 "python" "missing.pdf" "out.md" rfl (Or.inl (by decide))

/-- Counterexample to claim C3: when building the workbook raises an
exception, the error is reported but the generator process still finishes
with exit status 0 — not the non-zero status the claim asserts (the source
catches the exception, prints, and never calls `sys.exit`). -/
theorem template_generator_error_exit_status_zero :
    ("Error creating templates: disk full" ∈ (template_main (.raises "disk full") .ok).2) ∧
    (template_main (.raises "disk full") .ok).1 = 0 := by
  exact ⟨by decide, rfl⟩

/-- Claim C3 as amended: any error raised while building the spreadsheet or
the index document is caught at top level and reported to the operator with
a specific message naming the error, but the process then completes with
exit status 0 (the exception is swallowed; no non-zero exit is signaled). -/
theorem template_generator_reports_error_and_exits_zero (e : String) (idx : StepOutcome) :
    ((template_main (.raises e) idx).1 = 0 ∧
      ("Error creating templates: " ++ e) ∈ (template_main (.raises e) idx).2) ∧
    ((template_main .ok (.raises e)).1 = 0 ∧
      ("Error creating templates: " ++ e) ∈ (template_main .ok (.raises e)).2) := by
  refine ⟨⟨rfl, ?_⟩, ⟨rfl, ?_⟩⟩ <;> simp [template_main]

/-- Claim C4: the workbook has exactly one sheet per schema plus the summary
(10 sheets with pairwise distinct names), and the Summary sheet lists, under
its header row, exactly one row per schema in catalogue order holding the
schema name, its Hebrew display name, its description, and its sample-row
count. -/
theorem workbook_summary_and_sheet_count :
    create_excel_workbook.length = tables_data.length + 1 ∧
    tables_data.length = 9 ∧
    (create_excel_workbook.map Sheet.name).Nodup ∧
    summarySheet.rows =
      summaryHeader ::
        [[Cell.s "Land_Registry_Comprehensive", Cell.s "נסח טאבו מקיף",
          Cell.s "מסמכי בעלות ורישום מקרקעין", Cell.v (Value.vInt 1)],
         [Cell.s "Building_Permits", Cell.s "היתרי בנייה",
          Cell.s "מסמכי היתרי בנייה מילוליים", Cell.v (Value.vInt 1)],
         [Cell.s "Shared_Building_Orders", Cell.s "צווי בית משותף",
          Cell.s "מסמכי רישום בית משותף", Cell.v (Value.vInt 1)],
         [Cell.s "Property_Assessments", Cell.s "שומות שווי נכסים",
          Cell.s "נתוני הערכת שווי נכסים מקצועית", Cell.v (Value.vInt 1)],
         [Cell.s "Images", Cell.s "תמונות נכסים",
          Cell.s "תמונות ומסמכים נלווים לנכסים", Cell.v (Value.vInt 2)],
         [Cell.s "Garmushka", Cell.s "גרמושקה",
          Cell.s "מסמכי מדידה וחישוב שטחים", Cell.v (Value.vInt 1)],
         [Cell.s "Comparable_Data", Cell.s "נתוני השוואה",
          Cell.s "נתוני מכירות נכסים להשוואה", Cell.v (Value.vInt 2)],
         [Cell.s "Miscellaneous", Cell.s "נתונים נוספים",
          Cell.s "נתוני הערכת שווי נוספים", Cell.v (Value.vInt 1)],
         [Cell.s "Environment_Analyses", Cell.s "ניתוחי סביבה",
          Cell.s "ניתוח מיקום וסביבה של נכסים", Cell.v (Value.vInt 1)]] := by
  refine ⟨by decide, by decide, by decide, by decide⟩

/-- Claim C5: for every schema of the catalogue, its rendered sheet is named
by the schema name truncated to 31 characters; it consists of a bold title
row, an italic description row, the column-header row, and one data row per
sample row; and every field present in any sample row of the schema appears
as a column header. -/
theorem schema_sheets_shape_and_field_headers : ∀ p ∈ tables_data,
    (tableSheet p.1 p.2).name = ⟨p.1.data.take 31⟩ ∧
    (tableSheet p.1 p.2).rows.length = 3 + p.2.data.length ∧
    (tableSheet p.1 p.2).titleBold = true ∧
    (tableSheet p.1 p.2).descItalic = true ∧
    (tableSheet p.1 p.2).rows.getD 0 [] = [Cell.s ("טבלה: " ++ p.2.hebrew_name)] ∧
    (tableSheet p.1 p.2).rows.getD 1 [] = [Cell.s ("תיאור: " ++ p.2.description)] ∧
    ∀ r ∈ p.2.data, ∀ kv ∈ r, Cell.s kv.1 ∈ (tableSheet p.1 p.2).rows.getD 2 [] := by
  decide

/-- Witness for C5 at the concrete `Building_Permits` schema. -/
theorem schema_sheets_shape_and_field_headers_witness :
    (("Building_Permits", buildingPermitsInfo) ∈ tables_data) ∧
    ((tableSheet "Building_Permits" buildingPermitsInfo).name =
        ⟨"Building_Permits".data.take 31⟩ ∧
      (tableSheet "Building_Permits" buildingPermitsInfo).rows.length =
        3 + buildingPermitsInfo.data.length ∧
      (tableSheet "Building_Permits" buildingPermitsInfo).titleBold = true ∧
      (tableSheet "Building_Permits" buildingPermitsInfo).descItalic = true ∧
      (tableSheet "Building_Permits" buildingPermitsInfo).rows.getD 0 [] =
        [Cell.s ("טבלה: " ++ buildingPermitsInfo.hebrew_name)] ∧
      (tableSheet "Building_Permits" buildingPermitsInfo).rows.getD 1 [] =
        [Cell.s ("תיאור: " ++ buildingPermitsInfo.description)] ∧
      ∀ r ∈ buildingPermitsInfo.data, ∀ kv ∈ r,
        Cell.s kv.1 ∈ (tableSheet "Building_Permits" buildingPermitsInfo).rows.getD 2 []) :=
  ⟨List.mem_cons.mpr (Or.inr (List.mem_cons.mpr (Or.inl rfl))),
    schema_sheets_shape_and_field_headers ("Building_Permits", buildingPermitsInfo)
      (List.mem_cons.mpr (Or.inr (List.mem_cons.mpr (Or.inl rfl))))⟩

/-- Claim C6: the generator is a deterministic function of the fixed
catalogue and CSV-filename list — two runs, in arbitrary ambient states,
produce identical workbook cell content and sheet order and identical index
text. -/
theorem generator_deterministic (e₁ e₂ : GenEnv) :
    generator_run e₁ = generator_run e₂ := rfl

/-- Claim C7: when the source path does not exist the converter exits with
status 1, reports the distinct source-file-missing error as its only output
line, leaves the filesystem untouched, and never invokes the conversion
service. -/
theorem converter_missing_source_rejected (prog src dst : String) (fs : FS)
    (svc : ServiceBehavior) (h : fs.existsPath src = false) :
    (main_run [prog, src, dst] fs svc).exitCode = 1 ∧
    (main_run [prog, src, dst] fs svc).fs = fs ∧
    (main_run [prog, src, dst] fs svc).messages = ["ERROR: PDF file not found: " ++ src] ∧
    (main_run [prog, src, dst] fs svc).serviceInvoked = false := by
  simp [main_run, h]

/-- Witness for C7 on a concrete run. -/
theorem converter_missing_source_rejected_witness :
    (FS.existsPath ⟨[("other.pdf", "raw")], []⟩ "gone.pdf" = false) ∧
    ((main_run ["python", "gone.pdf", "o.md"] ⟨[("other.pdf", "raw")], []⟩
        (.returns "t")).exitCode = 1 ∧
      (main_run ["python", "gone.pdf", "o.md"] ⟨[("other.pdf", "raw")], []⟩
        (.returns "t")).fs = ⟨[("other.pdf", "raw")], []⟩ ∧
      (main_run ["python", "gone.pdf", "o.md"] ⟨[("other.pdf", "raw")], []⟩
        (.returns "t")).messages = ["ERROR: PDF file not found: " ++ "gone.pdf"] ∧
      (main_run ["python", "gone.pdf", "o.md"] ⟨[("other.pdf", "raw")], []⟩
        (.returns "t")).serviceInvoked = false) :=
  ⟨by decide,
    converter_missing_source_rejected "python" "gone.pdf" "o.md"
      ⟨[("other.pdf", "raw")], []⟩ (.returns "t") (by decide)⟩

/-- Claim C8: when the source path exists but does not end in the recognized
document extension, the converter exits with status 1 before the conversion
service is ever invoked, leaving the filesystem untouched. -/
theorem converter_bad_extension_rejected (prog src dst : String) (fs : FS)
    (svc : ServiceBehavior) (hex : fs.existsPath src = true)
    (hext : pyEndsWith (pyLower src) ".pdf" = false) :
    (main_run [prog, src, dst] fs svc).exitCode = 1 ∧
    (main_run [prog, src, dst] fs svc).serviceInvoked = false ∧
    (main_run [prog, src, dst] fs svc).fs = fs := by
  simp [main_run, hex, hext]

/-- Witness for C8 on a concrete run. -/
theorem converter_bad_extension_rejected_witness :
    (FS.existsPath ⟨[("a.txt", "raw")], []⟩ "a.txt" = true) ∧
    (pyEndsWith (pyLower "a.txt") ".pdf" = false) ∧
    ((main_run ["python", "a.txt", "o.md"] ⟨[("a.txt", "raw")], []⟩
        (.convError "boom")).exitCode = 1 ∧
      (main_run ["python", "a.txt", "o.md"] ⟨[("a.txt", "raw")], []⟩
        (.convError "boom")).serviceInvoked = false ∧
      (main_run ["python", "a.txt", "o.md"] ⟨[("a.txt", "raw")], []⟩
        (.convError "boom")).fs = ⟨[("a.txt", "raw")], []⟩) :=
  ⟨by decide, by decide,
    converter_bad_extension_rejected "python" "a.txt" "o.md" ⟨[("a.txt", "raw")], []⟩
      (.convError "boom") (by decide) (by decide)⟩

/-- Claim C9: on every invocation that passes validation, the absent parent
directory of the destination path exists after the run, whatever the
conversion service does — including every failure mode. -/
theorem converter_creates_output_directory (prog src dst : String) (fs : FS)
    (svc : ServiceBehavior) (hex : fs.existsPath src = true)
    (hext : pyEndsWith (pyLower src) ".pdf" = true)
    (hd : dirname dst ≠ "")
    (habs : fs.existsPath (dirname dst) = false) :
    dirname dst ∈ (main_run [prog, src, dst] fs svc).fs.dirs := by
  cases svc with
  | importError e =>
    simp [main_run, hex, hext, hd, habs, convert_pdf_to_markdown, FS.makeDirs]
  | convError e =>
    simp [main_run, hex, hext, hd, habs, convert_pdf_to_markdown, FS.makeDirs]
  | returns t =>
    by_cases ht : t.isEmpty = true <;>
      simp [main_run, hex, hext, hd, habs, convert_pdf_to_markdown, ht,
        FS.makeDirs, FS.writeFile]

/-- Witness for C9 on a concrete failing run (missing dependency): the
output directory exists afterwards although no conversion happened. -/
theorem converter_creates_output_directory_witness :
    (FS.existsPath ⟨[("a.pdf", "raw")], []⟩ "a.pdf" = true) ∧
    (pyEndsWith (pyLower "a.pdf") ".pdf" = true) ∧
    (dirname "out/a.md" ≠ "") ∧
    (FS.existsPath ⟨[("a.pdf", "raw")], []⟩ (dirname "out/a.md") = false) ∧
    dirname "out/a.md" ∈
      (main_run ["python", "a.pdf", "out/a.md"] ⟨[("a.pdf", "raw")], []⟩
        (.importError "No module named markitdown")).fs.dirs :=
  ⟨by decide, by decide, by decide, by decide,
    converter_creates_output_directory "python" "a.pdf" "out/a.md"
      ⟨[("a.pdf", "raw")], []⟩ (.importError "No module named markitdown")
      (by decide) (by decide) (by decide) (by decide)⟩

/-- Claim C10: the extension check is case-insensitive — an existing source
path is accepted (the conversion service gets invoked) exactly when its
lowercased form ends in ".pdf". -/
theorem converter_extension_check_case_insensitive (prog src dst : String) (fs : FS)
    (t : String) (hex : fs.existsPath src = true) :
    (main_run [prog, src, dst] fs (.returns t)).serviceInvoked = true ↔
      pyEndsWith (pyLower src) ".pdf" = true := by
  by_cases hext : pyEndsWith (pyLower src) ".pdf" = true
  · by_cases ht : t.isEmpty = true <;>
      simp [main_run, hex, hext, convert_pdf_to_markdown, ht]
  · have hext2 : pyEndsWith (pyLower src) ".pdf" = false := by
      cases h : pyEndsWith (pyLower src) ".pdf" <;> simp_all
    simp [main_run, hex, hext2]

/-- Witness for C10 at the upper-case path "DOC.PDF", which passes the
check. -/
theorem converter_extension_check_case_insensitive_witness :
    (FS.existsPath ⟨[("DOC.PDF", "raw")], []⟩ "DOC.PDF" = true) ∧
    ((main_run ["python", "DOC.PDF", "o.md"] ⟨[("DOC.PDF", "raw")], []⟩
        (.returns "t")).serviceInvoked = true ↔
      pyEndsWith (pyLower "DOC.PDF") ".pdf" = true) :=
  ⟨by decide,
    converter_extension_check_case_insensitive "python" "DOC.PDF" "o.md"
      ⟨[("DOC.PDF", "raw")], []⟩ "t" (by decide)⟩

end Shamay
